import Mathlib

/-!
# Verification of `server.py` (Local-Whisper Obsidian plugin backend)

Shallow embedding of the Flask service in `src/server.py`: a `/health`
endpoint and a `/transcribe` endpoint that decodes a base64 payload to a
temporary file, invokes the Whisper model on it, and returns the trimmed
transcript.

Modelling decisions (each noted at the definition it concerns):
* JSON values are the inductive `Json`; Python truthiness (`if not payload`)
  is `Json.truthy`.
* `request.get_json(force=True)` raises `BadRequest` when the body is empty
  or not parseable JSON; the handler receives `Option Json`, with `none`
  standing for that raised exception (which the handler's own
  `except Exception` catches).
* `base64.b64decode` is embedded concretely, following CPython's
  `binascii.a2b_base64` in non-strict mode (invalid characters skipped,
  padding checked at the end).
* The external Whisper model is a black-box parameter
  `mdl : String → List Nat → Option Json → Except String Json`
  (path, written bytes, optional language hint ↦ result dict or exception).
* The handler returns, besides the HTTP response, an event trace: whether a
  temporary file was created and deleted, the suffix used for it, the model
  call made (if any) and the model's returned value (if any).  File-system
  writes are modelled as reliable; `os.unlink` on the file the handler just
  created succeeds, so `tmpDeleted` records that the `finally` block ran.
-/

namespace WhisperServer

/-- A JSON value, as produced by Flask's `request.get_json`.  Python dicts
preserve insertion order, hence the association-list representation. -/
inductive Json where
  | null : Json
  | bool : Bool → Json
  | num : Int → Json
  | str : String → Json
  | arr : List Json → Json
  | obj : List (String × Json) → Json

/-- Python truthiness of a JSON value (`if not payload`, `if not data_b64`,
`if language and ...`). -/
def Json.truthy : Json → Bool
  | .null => false
  | .bool b => b
  | .num n => n != 0
  | .str s => s != ""
  | .arr xs => !xs.isEmpty
  | .obj fs => !fs.isEmpty

/-- `payload.get(k)` on a Python dict: `None` (here `none`) when absent. -/
def Json.get? : Json → String → Option Json
  | .obj fs, k => List.lookup k fs
  | _, _ => none

/-- `payload.get(k, d)`: lookup with a default. -/
def Json.getD (j : Json) (k : String) (d : Json) : Json :=
  (j.get? k).getD d

/-- `language == "auto"` in Python: a JSON value equals the string
`"auto"` exactly when it is that string (values of other types compare
unequal to a `str`). -/
def Json.isAuto : Json → Bool
  | .str s => s == "auto"
  | _ => false

/-- Python `str()` of a JSON value, as used by the f-string `f".{fmt}"`.
Scalars follow Python exactly; the container cases abbreviate CPython's
`repr`-based rendering, which no claim exercises. -/
def pyStr : Json → String
  | .null => "None"
  | .bool true => "True"
  | .bool false => "False"
  | .num n => toString n
  | .str s => s
  | .arr _ => "[...]"
  | .obj _ => "\x7b...\x7d"

/-- The characters removed by Python's `str.strip()` (ASCII whitespace;
the Unicode space classes do not occur in the claims). -/
def isPySpace (c : Char) : Bool :=
  c == ' ' || c == '\t' || c == '\n' || c == '\r' || c == '\x0b' || c == '\x0c'

/-- Python `str.endswith(suffix)`: the suffix relation on the character
sequences (equivalent to `String.endsWith`, stated on `List Char` so that
it evaluates by reduction). -/
def pyEndsWith (s suffix : String) : Bool :=
  List.isSuffixOf suffix.data s.data

/-- Python `str.strip()`: drop leading and trailing whitespace. -/
def pyStrip (s : String) : String :=
  String.mk (((s.data.dropWhile isPySpace).reverse.dropWhile isPySpace).reverse)

/-- `true` iff the string neither starts nor ends with a
`str.strip`-whitespace character. -/
def noEdgeSpace (s : String) : Bool :=
  (s.data.head?.all fun c => !isPySpace c) &&
  (s.data.getLast?.all fun c => !isPySpace c)

/-- Value of a character in the standard base64 alphabet, `none` for
characters outside it (CPython's `table_a2b_base64`). -/
def b64Val (c : Char) : Option Nat :=
  if 65 ≤ c.toNat ∧ c.toNat ≤ 90 then some (c.toNat - 65)
  else if 97 ≤ c.toNat ∧ c.toNat ≤ 122 then some (c.toNat - 97 + 26)
  else if 48 ≤ c.toNat ∧ c.toNat ≤ 57 then some (c.toNat - 48 + 52)
  else if c = '+' then some 62
  else if c = '/' then some 63
  else none

/-- The scanning loop of CPython's `binascii.a2b_base64` in non-strict
mode: characters outside the alphabet are skipped; `'='` at quad
position ≥ 2 counts as padding and, once the quad is complete, ends the
decode; leftover quad positions 1 / 2-3 at the end of input raise.
Arguments: remaining input, quad position (0-3), pending high bits,
padding characters seen in the current quad, output bytes (reversed). -/
def a2bLoop : List Char → Nat → Nat → Nat → List Nat → Except String (List Nat)
  | [], quadPos, _, _, acc =>
      if quadPos = 0 then .ok acc.reverse
      else if quadPos = 1 then
        .error "Invalid base64-encoded string: number of data characters cannot be 1 more than a multiple of 4"
      else .error "Incorrect padding"
  | c :: rest, quadPos, leftchar, pads, acc =>
      if c = '=' then
        if 2 ≤ quadPos ∧ 4 ≤ quadPos + (pads + 1) then .ok acc.reverse
        else if 2 ≤ quadPos then a2bLoop rest quadPos leftchar (pads + 1) acc
        else a2bLoop rest quadPos leftchar pads acc
      else
        match b64Val c with
        | none => a2bLoop rest quadPos leftchar pads acc
        | some v =>
          match quadPos with
          | 0 => a2bLoop rest 1 v 0 acc
          | 1 => a2bLoop rest 2 (v % 16) 0 ((leftchar * 4 + v / 16) :: acc)
          | 2 => a2bLoop rest 3 (v % 4) 0 ((leftchar * 16 + v / 4) :: acc)
          | _ => a2bLoop rest 0 0 0 ((leftchar * 64 + v) :: acc)

/-- `base64.b64decode` on a `str` argument: the string must be ASCII, then
`binascii.a2b_base64` decodes it.  `.error` models the raised
`binascii.Error` / `ValueError`. -/
def b64decode (s : String) : Except String (List Nat) :=
  if s.data.all (fun c => c.toNat < 128) then a2bLoop s.data 0 0 0 []
  else .error "string argument should contain only ASCII characters"

/-- An HTTP response: status code and JSON body (`jsonify(...)` has
status 200 unless one is given explicitly). -/
structure Response where
  status : Nat
  body : Json

/-- `traceback.format_exc()` for the exception whose `str` is `msg`
(modelled up to the message it embeds). -/
def formatTrace (msg : String) : String :=
  "Traceback (most recent call last):\n" ++ msg

/-- `jsonify({"ok": False, "error": msg}), 400` — the client-error
responses at lines 32 and 36 of `server.py`. -/
def clientError (msg : String) : Response :=
  ⟨400, Json.obj [("ok", Json.bool false), ("error", Json.str msg)]⟩

/-- `jsonify({"ok": False, "error": str(e), "trace": tb}), 500` — the
generic handler at lines 65-68 of `server.py`. -/
def serverError (msg : String) : Response :=
  ⟨500, Json.obj [("ok", Json.bool false), ("error", Json.str msg),
                  ("trace", Json.str (formatTrace msg))]⟩

/-- Message of line 32 of `server.py`. -/
def emptyBodyMsg : String := "Request JSON vacío"

/-- Message of line 36 of `server.py`. -/
def missingDataMsg : String := "Falta campo \x27data\x27 (base64)"

/-- `str` of the `BadRequest` that `request.get_json(force=True)` raises
on an empty or unparseable body. -/
def badJsonMsg : String := "400 Bad Request: Failed to decode JSON object"

/-- The black-box Whisper model: `model.transcribe(path, **opts)` seen as
a function of the file path, the bytes the handler wrote to it, and the
optional `language` entry of `whisper_opts`; it returns the result dict
or raises. -/
abbrev Model := String → List Nat → Option Json → Except String Json

/-- Everything observable about one run of the `transcribe` handler. -/
structure HandlerResult where
  /-- The HTTP response returned to the client. -/
  response : Response
  /-- A temporary file was created (line 44 was reached). -/
  tmpCreated : Bool
  /-- The `finally` block unlinked that file. -/
  tmpDeleted : Bool
  /-- The suffix passed to `NamedTemporaryFile`, when one was created. -/
  suffixUsed : Option String
  /-- The model invocation made, if any: path, bytes written, language
  option of `whisper_opts`. -/
  modelCalled : Option (String × List Nat × Option Json)
  /-- The value the model returned, if it returned one. -/
  modelResult : Option Json

/-- Outcome of the inner `try` block (lines 45-57): the model call made
(if reached), the model's return value (if any), and either the final
trimmed text or the exception that escaped to the outer handler. -/
structure InnerOutcome where
  call : Option (String × List Nat × Option Json)
  modelResult : Option Json
  outcome : Except String String

/-- Line 57 of `server.py`: `result.get("text", "").strip()`.  A non-dict
model result raises `AttributeError` at `.get`; a non-`str` `text` raises
`AttributeError` at `.strip`. -/
def extractText : Json → Except String String
  | .obj fs =>
    match (Json.obj fs).getD "text" (Json.str "") with
    | .str t => .ok (pyStrip t)
    | _ => .error "AttributeError: object has no attribute strip"
  | _ => .error "AttributeError: object has no attribute get"

/-- Lines 51-53 of `server.py`: the `whisper_opts` dict, holding a
`language` entry iff `language and language != "auto"`. -/
def langOptOf (language : Json) : Option Json :=
  if language.truthy && !language.isAuto then some language else none

/-- Lines 46-57 of `server.py`: `tmp.write(base64.b64decode(data_b64))`,
the `whisper_opts` construction, the model call, and the text
extraction.  A non-`str` `data` raises `TypeError` inside `b64decode`. -/
def innerTry (mdl : Model) (tmpPath : String) (dataJ language : Json) : InnerOutcome :=
  match dataJ with
  | .str s =>
    match b64decode s with
    | .error e => ⟨none, none, .error e⟩
    | .ok bytes =>
      match mdl tmpPath bytes (langOptOf language) with
      | .error e => ⟨some (tmpPath, bytes, langOptOf language), none, .error e⟩
      | .ok result =>
        ⟨some (tmpPath, bytes, langOptOf language), some result, extractText result⟩
  | _ => ⟨none, none,
          .error "TypeError: argument should be a bytes-like object or ASCII string, not the given type"⟩

/-- A result on a path where no temporary file was ever created. -/
def noFileResult (resp : Response) : HandlerResult :=
  { response := resp, tmpCreated := false, tmpDeleted := false,
    suffixUsed := none, modelCalled := none, modelResult := none }

/-- Line 43 of `server.py`:
`suffix = f".{fmt}" if not filename.endswith(f".{fmt}") else ""`,
for a `filename` that is the string `fn`. -/
def suffixFor (fs : List (String × Json)) (fn : String) : String :=
  let dotfmt := "." ++ pyStr ((Json.obj fs).getD "format" (Json.str "wav"))
  if !pyEndsWith fn dotfmt then dotfmt else ""

/-- Assembly of the handler result once the temporary file exists: the
`finally` block (lines 58-62) has run on both exits, and the response is
`{"ok": True, "text": text}` (line 64) or the generic 500 (lines 65-68). -/
def assemble (suffix : String) (inner : InnerOutcome) : HandlerResult :=
  match inner.outcome with
  | .ok text =>
    { response := ⟨200, Json.obj [("ok", Json.bool true), ("text", Json.str text)]⟩,
      tmpCreated := true, tmpDeleted := true, suffixUsed := some suffix,
      modelCalled := inner.call, modelResult := inner.modelResult }
  | .error e =>
    { response := serverError e,
      tmpCreated := true, tmpDeleted := true, suffixUsed := some suffix,
      modelCalled := inner.call, modelResult := inner.modelResult }

/-- Lines 42-68 for a truthy `data` field and a string `filename`: the
temporary file `tmpBase ++ suffix` is created, written, handed to the
model, and removed. -/
def fileStage (mdl : Model) (tmpBase : String) (fs : List (String × Json)) (fn : String) :
    HandlerResult :=
  assemble (suffixFor fs fn)
    (innerTry mdl (tmpBase ++ suffixFor fs fn)
      ((Json.obj fs).getD "data" Json.null)
      ((Json.obj fs).getD "language" (Json.str "auto")))

/-- The `transcribe` handler (lines 27-68 of `server.py`).
`parsedBody` is the outcome of `request.get_json(force=True)`: `none`
when it raised `BadRequest` (empty or unparseable body) — that exception
is caught by the handler's own `except Exception`, hence the 500.
`tmpBase` is the unique name `NamedTemporaryFile` chose before the
suffix is appended.  A truthy non-dict payload raises `AttributeError`
at `payload.get`; a non-`str` `filename` raises `AttributeError` at
`.endswith`. -/
def transcribe (mdl : Model) (parsedBody : Option Json) (tmpBase : String) : HandlerResult :=
  match parsedBody with
  | none => noFileResult (serverError badJsonMsg)
  | some payload =>
    if !payload.truthy then
      noFileResult (clientError emptyBodyMsg)
    else
      match payload with
      | .obj fs =>
        if !((Json.obj fs).getD "data" Json.null).truthy then
          noFileResult (clientError missingDataMsg)
        else
          match (Json.obj fs).getD "filename" (Json.str "audio") with
          | .str fn => fileStage mdl tmpBase fs fn
          | _ => noFileResult (serverError "AttributeError: object has no attribute endswith")
      | _ => noFileResult (serverError "AttributeError: object has no attribute get")

/-- `MODEL_NAME = os.environ.get("WHISPER_MODEL", "base")` (line 17),
with the process environment as a parameter. -/
def MODEL_NAME (env : String → Option String) : String :=
  (env "WHISPER_MODEL").getD "base"

/-- The `/health` handler (lines 23-25): a pure function of the
configuration — it reads no request state and mutates nothing. -/
def health (env : String → Option String) : Response :=
  ⟨200, Json.obj [("ok", Json.bool true), ("model", Json.str (MODEL_NAME env))]⟩

/-- A concrete model used for evaluating the handler at specific inputs:
it returns `{"text": "  hola  "}` on every call. -/
def okModel : Model := fun _ _ _ => .ok (Json.obj [("text", Json.str "  hola  ")])

/-! ## Supporting lemmas -/

lemma head?_dropWhile_not {α : Type} (p : α → Bool) (l : List α) {c : α}
    (h : (l.dropWhile p).head? = some c) : p c = false := by
  induction l with
  | nil => simp [List.dropWhile] at h
  | cons a t ih =>
    rw [List.dropWhile_cons] at h
    by_cases hp : p a = true
    · rw [if_pos hp] at h
      exact ih h
    · rw [if_neg hp] at h
      simp only [List.head?_cons, Option.some.injEq] at h
      subst h
      exact Bool.eq_false_iff.mpr hp

lemma getLast?_cons_of_ne {α : Type} (a : α) (t : List α) (h : t ≠ []) :
    (a :: t).getLast? = t.getLast? := by
  cases t with
  | nil => exact absurd rfl h
  | cons b u => simp [List.getLast?_cons_cons]

lemma getLast?_dropWhile {α : Type} (p : α → Bool) (l : List α)
    (h : l.dropWhile p ≠ []) : (l.dropWhile p).getLast? = l.getLast? := by
  induction l with
  | nil => simp [List.dropWhile] at h
  | cons a t ih =>
    rw [List.dropWhile_cons] at h ⊢
    by_cases hp : p a = true
    · rw [if_pos hp] at h ⊢
      have ht : t ≠ [] := by
        intro he
        subst he
        simp [List.dropWhile] at h
      rw [ih h, getLast?_cons_of_ne a t ht]
    · rw [if_neg hp]

/-- `str.strip` leaves a string with no whitespace at either edge. -/
lemma pyStrip_noEdgeSpace (s : String) : noEdgeSpace (pyStrip s) = true := by
  have hdata : (pyStrip s).data
      = ((s.data.dropWhile isPySpace).reverse.dropWhile isPySpace).reverse := rfl
  unfold noEdgeSpace
  rw [hdata]
  apply Bool.and_eq_true_iff.mpr
  constructor
  · rw [List.head?_reverse]
    rcases hme : (s.data.dropWhile isPySpace).reverse.dropWhile isPySpace with _ | ⟨x, xs⟩
    · rfl
    · rw [← hme,
        getLast?_dropWhile isPySpace (s.data.dropWhile isPySpace).reverse (by rw [hme]; simp),
        List.getLast?_reverse]
      rcases hh : (s.data.dropWhile isPySpace).head? with _ | c
      · rfl
      · have hc : isPySpace c = false := head?_dropWhile_not isPySpace s.data hh
        simp [hc]
  · rw [List.getLast?_reverse]
    rcases hh : ((s.data.dropWhile isPySpace).reverse.dropWhile isPySpace).head? with _ | c
    · rfl
    · have hc : isPySpace c = false :=
        head?_dropWhile_not isPySpace (s.data.dropWhile isPySpace).reverse hh
      simp [hc]

lemma assemble_tmpCreated (sfx : String) (inner : InnerOutcome) :
    (assemble sfx inner).tmpCreated = true := by
  unfold assemble
  split <;> rfl

lemma assemble_tmpDeleted (sfx : String) (inner : InnerOutcome) :
    (assemble sfx inner).tmpDeleted = true := by
  unfold assemble
  split <;> rfl

lemma assemble_suffixUsed (sfx : String) (inner : InnerOutcome) :
    (assemble sfx inner).suffixUsed = some sfx := by
  unfold assemble
  split <;> rfl

lemma assemble_modelCalled (sfx : String) (inner : InnerOutcome) :
    (assemble sfx inner).modelCalled = inner.call := by
  unfold assemble
  split <;> rfl

lemma assemble_response (sfx : String) (inner : InnerOutcome) :
    (∃ t, inner.outcome = .ok t ∧
      (assemble sfx inner).response
        = ⟨200, Json.obj [("ok", Json.bool true), ("text", Json.str t)]⟩ ∧
      (assemble sfx inner).modelResult = inner.modelResult) ∨
    (∃ e, inner.outcome = .error e ∧ (assemble sfx inner).response = serverError e) := by
  unfold assemble
  rcases hout : inner.outcome with e | t
  · exact Or.inr ⟨e, rfl, rfl⟩
  · exact Or.inl ⟨t, rfl, rfl, rfl⟩

lemma extractText_ok {res : Json} {t : String} (h : extractText res = .ok t) :
    ∃ raw, res.getD "text" (Json.str "") = Json.str raw ∧ t = pyStrip raw := by
  rcases res with _ | _ | _ | _ | _ | fs
  case obj =>
    unfold extractText at h
    dsimp only at h
    rcases hg : (Json.obj fs).getD "text" (Json.str "") with _ | _ | _ | raw | _ | _ <;>
      rw [hg] at h <;> dsimp only at h
    case str =>
      cases h
      exact ⟨raw, rfl, rfl⟩
    all_goals cases h
  all_goals simp [extractText] at h

/-- The three possible results of the inner `try` block: decode failure or
type failure before any model call, a model exception, or a model result
fed to the text extraction.  In the latter two the `language` option is
`langOptOf`. -/
lemma innerTry_shape (mdl : Model) (p : String) (dataJ language : Json) :
    (∃ msg, innerTry mdl p dataJ language = ⟨none, none, .error msg⟩) ∨
    (∃ bytes msg, innerTry mdl p dataJ language =
      ⟨some (p, bytes, langOptOf language), none, .error msg⟩) ∨
    (∃ bytes result, innerTry mdl p dataJ language =
      ⟨some (p, bytes, langOptOf language), some result, extractText result⟩) := by
  unfold innerTry
  rcases dataJ with _ | _ | _ | s | _ | _
  case str =>
    dsimp only
    rcases hb : b64decode s with e | bytes
    · exact Or.inl ⟨e, rfl⟩
    · dsimp only
      rcases hm : mdl p bytes (langOptOf language) with e | result
      · exact Or.inr (Or.inl ⟨bytes, e, rfl⟩)
      · exact Or.inr (Or.inr ⟨bytes, result, rfl⟩)
  all_goals exact Or.inl ⟨_, rfl⟩

lemma innerTry_decode_error (mdl : Model) (p : String) (language : Json) {s msg : String}
    (hb : b64decode s = .error msg) :
    innerTry mdl p (Json.str s) language = ⟨none, none, .error msg⟩ := by
  unfold innerTry
  dsimp only
  rw [hb]

/-- Truthiness of a non-empty dict. -/
lemma obj_truthy {fs : List (String × Json)} (h : fs ≠ []) :
    (Json.obj fs).truthy = true := by
  cases fs with
  | nil => exact absurd rfl h
  | cons a t => rfl

/-- Every run of the handler is a client error, a processing error with no
file involved, or a run of the temp-file stage on a non-empty dict payload
with a truthy `data` field and a string `filename`. -/
lemma transcribe_shape (mdl : Model) (pb : Option Json) (tn : String) :
    (∃ msg, transcribe mdl pb tn = noFileResult (clientError msg)) ∨
    (∃ msg, transcribe mdl pb tn = noFileResult (serverError msg)) ∨
    (∃ fs fn, pb = some (Json.obj fs) ∧
      (Json.obj fs).getD "filename" (Json.str "audio") = Json.str fn ∧
      ((Json.obj fs).getD "data" Json.null).truthy = true ∧
      transcribe mdl pb tn = fileStage mdl tn fs fn) := by
  rcases pb with _ | p
  · exact Or.inr (Or.inl ⟨badJsonMsg, rfl⟩)
  · by_cases hp : p.truthy
    · rcases p with _ | _ | _ | _ | _ | fs
      rotate_right 1
      · by_cases hd : ((Json.obj fs).getD "data" Json.null).truthy
        · rcases hf : (Json.obj fs).getD "filename" (Json.str "audio") with
            _ | _ | _ | fn | _ | _
          rotate_left 3
          · refine Or.inr (Or.inr ⟨fs, fn, rfl, hf, hd, ?_⟩)
            simp [transcribe, hp, hd, hf]
          all_goals
            exact Or.inr (Or.inl ⟨"AttributeError: object has no attribute endswith",
              by simp [transcribe, hp, hd, hf]⟩)
        · have hd' : ((Json.obj fs).getD "data" Json.null).truthy = false :=
            Bool.eq_false_iff.mpr hd
          exact Or.inl ⟨missingDataMsg, by simp [transcribe, hp, hd']⟩
      all_goals
        exact Or.inr (Or.inl ⟨"AttributeError: object has no attribute get",
          by simp [transcribe, hp]⟩)
    · have hp' : p.truthy = false := Bool.eq_false_iff.mpr hp
      exact Or.inl ⟨emptyBodyMsg, by simp [transcribe, hp']⟩

/-! ## Claims -/

/-- C1: On every request in which the `transcribe` handler creates a
temporary file, the `finally` block deletes it before the response is
returned — on the success path and on every failure path (decode error,
write error, model invocation error) alike; no temporary file created
during a request remains afterwards. -/
theorem transcribe_deletes_tmp_on_all_paths (mdl : Model) (pb : Option Json) (tn : String)
    (h : (transcribe mdl pb tn).tmpCreated = true) :
    (transcribe mdl pb tn).tmpDeleted = true := by
  rcases transcribe_shape mdl pb tn with ⟨msg, he⟩ | ⟨msg, he⟩ | ⟨fs, fn, _, _, _, he⟩
  · rw [he] at h
    simp [noFileResult] at h
  · rw [he] at h
    simp [noFileResult] at h
  · rw [he]
    unfold fileStage
    exact assemble_tmpDeleted _ _

/-- Witness for C1: a successful request and a failing (undecodable base64)
request; both create the temporary file and both delete it. -/
theorem transcribe_deletes_tmp_on_all_paths_witness :
    ((transcribe okModel
        (some (Json.obj [("data", Json.str "AAAA")])) "/tmp/req").tmpCreated = true ∧
     (transcribe okModel
        (some (Json.obj [("data", Json.str "AAAA")])) "/tmp/req").tmpDeleted = true) ∧
    ((transcribe okModel
        (some (Json.obj [("data", Json.str "not-valid-base64!!")])) "/tmp/req").tmpCreated = true ∧
     (transcribe okModel
        (some (Json.obj [("data", Json.str "not-valid-base64!!")])) "/tmp/req").tmpDeleted = true) :=
  ⟨⟨rfl, transcribe_deletes_tmp_on_all_paths okModel _ _ rfl⟩,
   ⟨rfl, transcribe_deletes_tmp_on_all_paths okModel _ _ rfl⟩⟩

/-- C2 counterexample: a request whose body is empty or unparseable makes
`request.get_json(force=True)` raise `BadRequest`, which the handler's own
`except Exception` catches — the response has `ok: false` but status 500,
not the claimed 400. -/
theorem unparseable_body_gets_500_not_400 :
    (transcribe okModel none "/tmp/req").response.status = 500 ∧
    (transcribe okModel none "/tmp/req").response.status ≠ 400 ∧
    (transcribe okModel none "/tmp/req").response.body.get? "ok" = some (Json.bool false) :=
  ⟨rfl, by decide, rfl⟩

/-- C2 amended: a body that parses to a falsy JSON document (empty object,
`null`, …) is answered `ok:false` with status 400; an empty or unparseable
body instead surfaces as the generic processing error — `ok:false` with
status 500. -/
theorem empty_vs_unparseable_body (mdl : Model) (tn : String) :
    ((transcribe mdl none tn).response.status = 500 ∧
     (transcribe mdl none tn).response.body.get? "ok" = some (Json.bool false)) ∧
    (∀ p : Json, p.truthy = false →
      (transcribe mdl (some p) tn).response = clientError emptyBodyMsg) := by
  refine ⟨⟨rfl, rfl⟩, fun p hp => ?_⟩
  simp [transcribe, hp, noFileResult]

/-- Witness for the amended C2: the unparseable-body conclusion and the
falsy-body conclusion, each at a concrete input. -/
theorem empty_vs_unparseable_body_witness :
    ((transcribe okModel none "/tmp/req").response.status = 500 ∧
     (transcribe okModel none "/tmp/req").response.body.get? "ok" = some (Json.bool false)) ∧
    (transcribe okModel (some (Json.obj [])) "/tmp/req").response = clientError emptyBodyMsg :=
  ⟨(empty_vs_unparseable_body okModel "/tmp/req").1,
   (empty_vs_unparseable_body okModel "/tmp/req").2 (Json.obj []) rfl⟩

/-- C4: a body parsing to a non-empty JSON object with no `data` key is
answered with status 400 and the missing-data error body, whatever other
fields (`filename`, `format`, `language`, …) are present. -/
theorem missing_data_field_yields_400 (mdl : Model) (fs : List (String × Json)) (tn : String)
    (hne : fs ≠ []) (hnd : List.lookup "data" fs = none) :
    (transcribe mdl (some (Json.obj fs)) tn).response.status = 400 ∧
    (transcribe mdl (some (Json.obj fs)) tn).response.body =
      Json.obj [("ok", Json.bool false), ("error", Json.str missingDataMsg)] := by
  have hp : (Json.obj fs).truthy = true := obj_truthy hne
  have hd : ((Json.obj fs).getD "data" Json.null).truthy = false := by
    simp [Json.getD, Json.get?, hnd, Json.truthy]
  have he : transcribe mdl (some (Json.obj fs)) tn
      = noFileResult (clientError missingDataMsg) := by
    simp [transcribe, hp, hd]
  rw [he]
  exact ⟨rfl, rfl⟩

/-- Witness for C4: an object carrying `filename` and `format` but no
`data`. -/
theorem missing_data_field_yields_400_witness :
    (transcribe okModel
        (some (Json.obj [("filename", Json.str "a"), ("format", Json.str "wav")]))
        "/tmp/req").response.status = 400 ∧
    (transcribe okModel
        (some (Json.obj [("filename", Json.str "a"), ("format", Json.str "wav")]))
        "/tmp/req").response.body =
      Json.obj [("ok", Json.bool false), ("error", Json.str missingDataMsg)] :=
  missing_data_field_yields_400 okModel _ "/tmp/req" (by simp) rfl

/-- C10: a `data` field that is present but falsy (e.g. the empty string)
is rejected exactly like a missing one: status 400 with the missing-data
message, no temporary file created, no model invocation. -/
theorem falsy_data_rejected_like_missing (mdl : Model) (fs : List (String × Json))
    (tn : String) (d : Json) (hd : List.lookup "data" fs = some d)
    (hf : d.truthy = false) :
    transcribe mdl (some (Json.obj fs)) tn =
      { response := ⟨400, Json.obj [("ok", Json.bool false),
          ("error", Json.str missingDataMsg)]⟩,
        tmpCreated := false, tmpDeleted := false, suffixUsed := none,
        modelCalled := none, modelResult := none } := by
  have hne : fs ≠ [] := by
    rintro rfl
    simp [List.lookup] at hd
  have hp : (Json.obj fs).truthy = true := obj_truthy hne
  have hdt : ((Json.obj fs).getD "data" Json.null).truthy = false := by
    simp [Json.getD, Json.get?, hd, hf]
  simp [transcribe, hp, hdt, noFileResult, clientError]

/-- Witness for C10: `data` present as the empty string. -/
theorem falsy_data_rejected_like_missing_witness :
    transcribe okModel (some (Json.obj [("data", Json.str "")])) "/tmp/req" =
      { response := ⟨400, Json.obj [("ok", Json.bool false),
          ("error", Json.str missingDataMsg)]⟩,
        tmpCreated := false, tmpDeleted := false, suffixUsed := none,
        modelCalled := none, modelResult := none } :=
  falsy_data_rejected_like_missing okModel _ "/tmp/req" (Json.str "") rfl rfl

/-- C8: `/health` always returns status 200 with body `{ok: true, model: m}`
where `m` is the configured `WHISPER_MODEL` environment value, defaulting to
`"base"`; in the embedding it is a pure function of the startup
configuration alone, so it is unaffected by any `/transcribe` activity and
has no side effects. -/
theorem health_returns_ok_and_model (env : String → Option String) :
    health env = ⟨200, Json.obj [("ok", Json.bool true),
      ("model", Json.str ((env "WHISPER_MODEL").getD "base"))]⟩ :=
  rfl

/-- C3 counterexample: with `language: ""` — a value different from the
sentinel `"auto"` — the guard `if language and language != "auto"` is
falsy, so the model is called with NO language hint instead of the claimed
verbatim `""`. -/
theorem falsy_language_not_forwarded :
    (transcribe okModel
        (some (Json.obj [("data", Json.str "AAAA"), ("language", Json.str "")]))
        "/tmp/req").modelCalled = some ("/tmp/req.wav", [0, 0, 0], none) ∧
    Json.str "" ≠ Json.str "auto" := by
  refine ⟨by rfl, fun h => ?_⟩
  injection h with h2
  exact absurd h2 (by decide)

/-- C3 amended: whenever the model is invoked, its language option is
`langOptOf` of the payload's `language` field (default `"auto"`): the hint
is omitted when that field is `"auto"`, absent, or falsy (`""`, `null`,
`false`, `0`, …), and any truthy non-`"auto"` value is forwarded
verbatim. -/
theorem language_hint_forwarding (mdl : Model) (pb : Option Json) (tn : String)
    (path : String) (bytes : List Nat) (lo : Option Json)
    (h : (transcribe mdl pb tn).modelCalled = some (path, bytes, lo)) :
    ∃ fs, pb = some (Json.obj fs) ∧
      lo = langOptOf ((Json.obj fs).getD "language" (Json.str "auto")) := by
  rcases transcribe_shape mdl pb tn with ⟨msg, he⟩ | ⟨msg, he⟩ | ⟨fs, fn, hpb, _, _, he⟩ <;>
    rw [he] at h
  · simp [noFileResult] at h
  · simp [noFileResult] at h
  · unfold fileStage at h
    rw [assemble_modelCalled] at h
    rcases innerTry_shape mdl (tn ++ suffixFor fs fn)
        ((Json.obj fs).getD "data" Json.null)
        ((Json.obj fs).getD "language" (Json.str "auto")) with
      ⟨msg, hi⟩ | ⟨bytes', msg, hi⟩ | ⟨bytes', result, hi⟩
    · rw [hi] at h
      simp at h
    · rw [hi] at h
      dsimp only at h
      injection h with h1
      injection h1 with hpath h2
      injection h2 with hbytes hlo
      exact ⟨fs, hpb, hlo.symm⟩
    · rw [hi] at h
      dsimp only at h
      injection h with h1
      injection h1 with hpath h2
      injection h2 with hbytes hlo
      exact ⟨fs, hpb, hlo.symm⟩

/-- Witness for the amended C3: `language: "es"` is truthy and not
`"auto"`, so it is forwarded verbatim. -/
theorem language_hint_forwarding_witness :
    ∃ fs, (some (Json.obj [("data", Json.str "AAAA"), ("language", Json.str "es")])
        : Option Json) = some (Json.obj fs) ∧
      (some (Json.str "es") : Option Json)
        = langOptOf ((Json.obj fs).getD "language" (Json.str "auto")) :=
  language_hint_forwarding okModel _ "/tmp/req" "/tmp/req.wav" [0, 0, 0]
    (some (Json.str "es")) (by rfl)

/-- C5 counterexample: the 400 client-error response for a missing `data`
field has fields `ok` and `error` but no `trace` field, so not every
failure body carries all three claimed fields. -/
theorem client_error_has_no_trace_field :
    (transcribe okModel (some (Json.obj [("format", Json.str "wav")]))
      "/tmp/req").response.status = 400 ∧
    (transcribe okModel (some (Json.obj [("format", Json.str "wav")]))
      "/tmp/req").response.body.get? "ok" = some (Json.bool false) ∧
    (transcribe okModel (some (Json.obj [("format", Json.str "wav")]))
      "/tmp/req").response.body.get? "trace" = none :=
  ⟨rfl, rfl, rfl⟩

/-- C5 amended: failure bodies split by status — every 500 processing-error
response has body `{ok: false, error: e, trace: tb}`, while the 400
client-error responses carry only `{ok: false, error: e}`, with no
`trace`. -/
theorem failure_body_shape (mdl : Model) (pb : Option Json) (tn : String) :
    ((transcribe mdl pb tn).response.status = 500 →
      ∃ e, (transcribe mdl pb tn).response.body =
        Json.obj [("ok", Json.bool false), ("error", Json.str e),
                  ("trace", Json.str (formatTrace e))]) ∧
    ((transcribe mdl pb tn).response.status = 400 →
      ∃ e, (transcribe mdl pb tn).response.body =
        Json.obj [("ok", Json.bool false), ("error", Json.str e)]) := by
  rcases transcribe_shape mdl pb tn with ⟨msg, he⟩ | ⟨msg, he⟩ | ⟨fs, fn, _, _, _, he⟩ <;>
    rw [he]
  · exact ⟨fun h => by simp [noFileResult, clientError] at h, fun _ => ⟨msg, rfl⟩⟩
  · exact ⟨fun _ => ⟨msg, rfl⟩, fun h => by simp [noFileResult, serverError] at h⟩
  · unfold fileStage
    rcases assemble_response (suffixFor fs fn)
        (innerTry mdl (tn ++ suffixFor fs fn) ((Json.obj fs).getD "data" Json.null)
          ((Json.obj fs).getD "language" (Json.str "auto"))) with
      ⟨t, _, hr, _⟩ | ⟨e, _, hr⟩
    · constructor
      · intro h
        rw [hr] at h
        simp at h
      · intro h
        rw [hr] at h
        simp at h
    · constructor
      · intro _
        refine ⟨e, ?_⟩
        rw [hr]
        rfl
      · intro h
        rw [hr] at h
        simp [serverError] at h

/-- Witness for the amended C5: the 500 conclusion at an undecodable-base64
request, the 400 conclusion at a missing-`data` request. -/
theorem failure_body_shape_witness :
    (∃ e, (transcribe okModel
        (some (Json.obj [("data", Json.str "not-valid-base64!!")]))
        "/tmp/req").response.body =
      Json.obj [("ok", Json.bool false), ("error", Json.str e),
                ("trace", Json.str (formatTrace e))]) ∧
    (∃ e, (transcribe okModel
        (some (Json.obj [("format", Json.str "wav")])) "/tmp/req").response.body =
      Json.obj [("ok", Json.bool false), ("error", Json.str e)]) :=
  ⟨(failure_body_shape okModel _ "/tmp/req").1 rfl,
   (failure_body_shape okModel _ "/tmp/req").2 rfl⟩

/-- C6: every successful `/transcribe` response has body
`{ok: true, text: t}` where `t` is the model result's `text` field with
surrounding whitespace stripped — in particular `t` has no leading or
trailing whitespace. -/
theorem success_text_is_trimmed (mdl : Model) (pb : Option Json) (tn : String)
    (h : (transcribe mdl pb tn).response.status = 200) :
    ∃ res raw, (transcribe mdl pb tn).modelResult = some res ∧
      res.getD "text" (Json.str "") = Json.str raw ∧
      (transcribe mdl pb tn).response.body =
        Json.obj [("ok", Json.bool true), ("text", Json.str (pyStrip raw))] ∧
      noEdgeSpace (pyStrip raw) = true := by
  rcases transcribe_shape mdl pb tn with ⟨msg, he⟩ | ⟨msg, he⟩ | ⟨fs, fn, _, _, _, he⟩ <;>
    rw [he] at h ⊢
  · simp [noFileResult, clientError] at h
  · simp [noFileResult, serverError] at h
  · unfold fileStage at h ⊢
    rcases assemble_response (suffixFor fs fn)
        (innerTry mdl (tn ++ suffixFor fs fn) ((Json.obj fs).getD "data" Json.null)
          ((Json.obj fs).getD "language" (Json.str "auto"))) with
      ⟨t, hout, hr, hmr⟩ | ⟨e, _, hr⟩
    · rcases innerTry_shape mdl (tn ++ suffixFor fs fn)
          ((Json.obj fs).getD "data" Json.null)
          ((Json.obj fs).getD "language" (Json.str "auto")) with
        ⟨msg, hi⟩ | ⟨bytes, msg, hi⟩ | ⟨bytes, result, hi⟩
      · rw [hi] at hout
        simp at hout
      · rw [hi] at hout
        simp at hout
      · rw [hi] at hout
        dsimp only at hout
        obtain ⟨raw, hg, ht⟩ := extractText_ok hout
        subst ht
        refine ⟨result, raw, ?_, hg, ?_, pyStrip_noEdgeSpace raw⟩
        · rw [hmr, hi]
        · rw [hr]
    · rw [hr] at h
      simp [serverError] at h

/-- Witness for C6: a successful request against the concrete model whose
result text is `"  hola  "`; the response text is the stripped `"hola"`. -/
theorem success_text_is_trimmed_witness :
    ∃ res raw,
      (transcribe okModel (some (Json.obj [("data", Json.str "AAAA")]))
        "/tmp/req").modelResult = some res ∧
      res.getD "text" (Json.str "") = Json.str raw ∧
      (transcribe okModel (some (Json.obj [("data", Json.str "AAAA")]))
        "/tmp/req").response.body =
        Json.obj [("ok", Json.bool true), ("text", Json.str (pyStrip raw))] ∧
      noEdgeSpace (pyStrip raw) = true :=
  success_text_is_trimmed okModel _ "/tmp/req" rfl

/-- C7: a `data` field that is a non-empty string on which base64 decoding
fails surfaces as a processing error: status 500 with the generic
`{ok:false, error, trace}` body — not a 400 client error. -/
theorem undecodable_base64_yields_500 (mdl : Model) (fs : List (String × Json))
    (tn s msg : String) (hd : List.lookup "data" fs = some (Json.str s))
    (hs : s ≠ "") (hb : b64decode s = .error msg) :
    (transcribe mdl (some (Json.obj fs)) tn).response.status = 500 ∧
    ∃ e, (transcribe mdl (some (Json.obj fs)) tn).response.body =
      Json.obj [("ok", Json.bool false), ("error", Json.str e),
                ("trace", Json.str (formatTrace e))] := by
  have hne : fs ≠ [] := by
    rintro rfl
    simp [List.lookup] at hd
  have hp : (Json.obj fs).truthy = true := obj_truthy hne
  have hdt : (Json.obj fs).getD "data" Json.null = Json.str s := by
    simp [Json.getD, Json.get?, hd]
  have htr : ((Json.obj fs).getD "data" Json.null).truthy = true := by
    rw [hdt]
    simpa [Json.truthy] using hs
  rcases hf : (Json.obj fs).getD "filename" (Json.str "audio") with _ | _ | _ | fn | _ | _
  rotate_left 3
  · have he : transcribe mdl (some (Json.obj fs)) tn = fileStage mdl tn fs fn := by
      simp [transcribe, hp, htr, hf]
    rw [he]
    unfold fileStage
    rw [hdt, innerTry_decode_error mdl (tn ++ suffixFor fs fn)
      ((Json.obj fs).getD "language" (Json.str "auto")) hb]
    exact ⟨rfl, msg, rfl⟩
  all_goals
    have he : transcribe mdl (some (Json.obj fs)) tn
        = noFileResult (serverError "AttributeError: object has no attribute endswith") := by
      simp [transcribe, hp, htr, hf]
  all_goals rw [he]
  all_goals exact ⟨rfl, _, rfl⟩

/-- Witness for C7: the spec's own concrete scenario,
`{"data": "not-valid-base64!!", "format": "wav"}`. -/
theorem undecodable_base64_yields_500_witness :
    (transcribe okModel
        (some (Json.obj [("data", Json.str "not-valid-base64!!"),
                         ("format", Json.str "wav")])) "/tmp/req").response.status = 500 ∧
    ∃ e, (transcribe okModel
        (some (Json.obj [("data", Json.str "not-valid-base64!!"),
                         ("format", Json.str "wav")])) "/tmp/req").response.body =
      Json.obj [("ok", Json.bool false), ("error", Json.str e),
                ("trace", Json.str (formatTrace e))] :=
  undecodable_base64_yields_500 okModel _ "/tmp/req" "not-valid-base64!!"
    "Incorrect padding" rfl (by decide) (by rfl)

/-- C9: whenever a temporary file is created, its suffix is computed from
the `format` field (default `"wav"`): it is `"." ++ format`, except that
no suffix is appended when `filename` already ends with `"." ++ format`
(the extension is never double-appended). -/
theorem tmp_suffix_from_format (mdl : Model) (pb : Option Json) (tn sfx : String)
    (h : (transcribe mdl pb tn).suffixUsed = some sfx) :
    ∃ fs fn, pb = some (Json.obj fs) ∧
      (Json.obj fs).getD "filename" (Json.str "audio") = Json.str fn ∧
      sfx = (if !pyEndsWith fn ("." ++ pyStr ((Json.obj fs).getD "format" (Json.str "wav")))
             then "." ++ pyStr ((Json.obj fs).getD "format" (Json.str "wav"))
             else "") := by
  rcases transcribe_shape mdl pb tn with ⟨msg, he⟩ | ⟨msg, he⟩ | ⟨fs, fn, hpb, hf, _, he⟩ <;>
    rw [he] at h
  · simp [noFileResult] at h
  · simp [noFileResult] at h
  · unfold fileStage at h
    rw [assemble_suffixUsed] at h
    injection h with h2
    exact ⟨fs, fn, hpb, hf, h2.symm⟩

/-- Witness for C9: `filename: "a.wav"` with the default format `"wav"`
already carries the extension, so the suffix is empty. -/
theorem tmp_suffix_from_format_witness :
    ∃ fs fn,
      (some (Json.obj [("data", Json.str "AAAA"), ("filename", Json.str "a.wav")])
        : Option Json) = some (Json.obj fs) ∧
      (Json.obj fs).getD "filename" (Json.str "audio") = Json.str fn ∧
      "" = (if !pyEndsWith fn ("." ++ pyStr ((Json.obj fs).getD "format" (Json.str "wav")))
            then "." ++ pyStr ((Json.obj fs).getD "format" (Json.str "wav"))
            else "") :=
  tmp_suffix_from_format okModel _ "/tmp/req" "" (by rfl)

end WhisperServer
